import Mathlib

/-!
Verification of the Analysis Pipeline Coordinator of the email-dossier
browser client.  The React component state of `frontend/src/App.js` is
embedded as an explicit record, and every asynchronous stage handler is
embedded as a pure transition function.  Each network interaction the
handler would perform is recorded in an emitted trace of `ServiceCall`
values, and the outcome of every awaited call is passed in explicitly as
an `Except` argument, so success and failure paths are both covered.
Reads of component state inside a handler refer to the state captured at
render time (the pre-state), as React closures do; `setX` calls
accumulate into the post-state.
-/

namespace EmailDossier

/-- Result payload of `/api/process_threads_metadata`
    (`processedMetadata` in `App.js`). -/
structure ProcessedMetadata where
  processed_thread_ids : List String
  available_client_names : List String
  deriving Repr, DecidableEq

/-- The `structured_analysis` object inside an analysis response.  A missing
    or empty `client_name` is modelled by the empty string, matching the
    falsiness test the source performs on it. -/
structure StructuredAnalysis where
  client_name : String
  deriving Repr, DecidableEq

/-- Result payload of `/api/analyze_thread` and
    `/api/analyze_multiple_threads` (`analysisResults` in `App.js`). -/
structure AnalysisResult where
  structured_analysis : Option StructuredAnalysis
  available_client_names : List String
  deriving Repr, DecidableEq

/-- Result payload of `/api/validate_client_name`
    (`clientValidation` in `App.js`). -/
structure ClientValidation where
  valid : Bool
  client_name : String
  reason : String
  deriving Repr, DecidableEq

/-- The component state of `AuthenticatedApp` in `frontend/src/App.js`,
    one field per `useState` hook relevant to the pipeline.  Dates are
    embedded as integers (JavaScript compares the `Date` objects by their
    numeric value). -/
structure AppState where
  startDate : Int
  endDate : Int
  keyword : String
  senderEmail : String
  isLoading : Bool
  error : String
  warning : String
  searchResults : List String
  selectedThreads : List String
  isProcessing : Bool
  processedMetadata : Option ProcessedMetadata
  isAnalyzing : Bool
  analysisResults : Option AnalysisResult
  keywordError : Bool
  dossier : Option String
  meetingDossier : Option String
  clientDossier : Option String
  isGeneratingMeeting : Bool
  isGeneratingClient : Bool
  clientValidation : ClientValidation
  selectedClientName : String
  availableClientNames : List String
  customClientName : String
  showCustomClientInput : Bool
  activeDossierTab : String
  deriving Repr, DecidableEq

/-- One outgoing request to the backend, with the payload fields the
    claims reason about. -/
inductive ServiceCall where
  | findThreads (startDate endDate : Int) (keyword fromEmail : Option String)
  | processThreads (threadIds : List String)
  | analyzeThread (threadId : String)
  | analyzeMultipleThreads (threadIds : List String)
  | generateMeetingDossier (analysis : AnalysisResult)
  | generateClientDossier (clientName : String)
  | validateClientName
  deriving Repr, DecidableEq

/-- JavaScript string truthiness for an optional string field: `null`,
    `undefined` and the empty string are falsy. -/
def optTruthy (o : Option String) : Bool :=
  match o with
  | none => false
  | some s => s ≠ ""

/-- `keyword || null` in a request body: an empty string is sent as null. -/
def orNull (s : String) : Option String :=
  if s = "" then none else some s

/-- `String.prototype.trim()`: strip leading and trailing whitespace. -/
def jsTrim (s : String) : String :=
  String.mk (((s.data.dropWhile Char.isWhitespace).reverse.dropWhile
    Char.isWhitespace).reverse)

/-- `String.prototype.toLowerCase()` on the ASCII range. -/
def jsToLower (s : String) : String := String.mk (s.data.map Char.toLower)

/-- `handleSearch` from `frontend/src/App.js` (lines 743-805).  The
    function clears all downstream state first, then validates, then
    performs the `/api/find_threads` call; `outcome` is the result of that
    call when it is reached.  On failure the catch block chooses a display
    message from the error (`isAuthError` / `getErrorMessage`); the chosen
    message is carried by the `Except.error` payload.  Returns the
    committed post-state together with the trace of issued requests. -/
def handleSearch (s : AppState) (outcome : Except String (List String)) :
    AppState × List ServiceCall :=
  let s1 := { s with
    isLoading := true, error := "", warning := "",
    searchResults := [], selectedThreads := [],
    processedMetadata := none, analysisResults := none,
    dossier := none, keywordError := false,
    meetingDossier := none, clientDossier := none,
    clientValidation := ⟨false, "", ""⟩,
    selectedClientName := "", availableClientNames := [] }
  if jsTrim s.keyword = "" ∧ jsTrim s.senderEmail = "" then
    ({ s1 with error := "Either keyword or sender email is required.",
               keywordError := true, isLoading := false }, [])
  else if s.startDate > s.endDate then
    ({ s1 with error := "Start date cannot be after end date.",
               isLoading := false }, [])
  else
    -- `hasSearchCriteria` uses untrimmed truthiness in the source; after the
    -- first guard at least one of the two strings is non-blank, so the
    -- warning branch below is unreachable, but it is kept for fidelity.
    let s2 := if s.keyword = "" ∧ s.senderEmail = "" then
        { s1 with warning :=
            "No search criteria provided. Searching all emails in the date range..." }
      else s1
    let call := ServiceCall.findThreads s.startDate s.endDate
        (orNull s.keyword) (orNull s.senderEmail)
    match outcome with
    | .ok data =>
        let s3 := { s2 with searchResults := data }
        let s4 := if data.length = 0 then
            { s3 with warning :=
                "No relevant email threads found. Try adjusting your search criteria." }
          else
            { s3 with warning :=
                "Found " ++ toString data.length ++ " email threads." }
        ({ s4 with isLoading := false }, [call])
    | .error msg =>
        ({ s2 with error := msg, isLoading := false }, [call])

/-- `handleProcessThreads` from `frontend/src/App.js` (lines 815-849).
    `outcome` is the result of the `/api/process_threads_metadata` call. -/
def handleProcessThreads (s : AppState)
    (outcome : Except Unit ProcessedMetadata) : AppState × List ServiceCall :=
  if s.selectedThreads.length = 0 then (s, [])
  else
    let s1 := { s with isProcessing := true, error := "",
                       processedMetadata := none, analysisResults := none }
    let call := ServiceCall.processThreads s.selectedThreads
    match outcome with
    | .ok m =>
        let clientNamesFound :=
          m.available_client_names ≠ [] ∧
          m.available_client_names.headD "" ≠ "Unknown Client"
        let w := if clientNamesFound then
            "Processed " ++ toString s.selectedThreads.length ++
              " threads. Found client: " ++ m.available_client_names.headD "" ++
              ". Ready for generation."
          else
            "Processed " ++ toString s.selectedThreads.length ++
              " threads. No external client detected. Analysis may help identify client."
        ({ s1 with processedMetadata := some m, warning := w,
                   isProcessing := false }, [call])
    | .error _ =>
        ({ s1 with
             error := "An error occurred while processing threads. Please try again.",
             isProcessing := false }, [call])

/-- `handleGeneratePastSummary` from `frontend/src/App.js` (lines 851-880).
    The reuse test reads the `analysisResults` closure captured at render
    time, which is the pre-state value, even though `setAnalysisResults(null)`
    has already been queued; in the reuse branch no further set happens, so
    the committed post-state keeps `analysisResults = none`. -/
def handleGeneratePastSummary (s : AppState)
    (outcome : Except Unit AnalysisResult) : AppState × List ServiceCall :=
  if s.processedMetadata.isNone then (s, [])
  else
    let s1 := { s with isAnalyzing := true, error := "", analysisResults := none }
    match s.analysisResults with
    | some _ =>
        ({ s1 with activeDossierTab := "agenda",
                   warning := "Past Summary generated successfully.",
                   isAnalyzing := false }, [])
    | none =>
        let ids := (s.processedMetadata.getD ⟨[], []⟩).processed_thread_ids
        let call := ServiceCall.analyzeMultipleThreads ids
        match outcome with
        | .ok a =>
            ({ s1 with analysisResults := some a,
                       activeDossierTab := "agenda",
                       warning := "Past Summary generated successfully.",
                       isAnalyzing := false }, [call])
        | .error _ =>
            ({ s1 with
                 error := "An error occurred while generating past summary. Please try again.",
                 isAnalyzing := false }, [call])

/-- The synchronous prefix of `handleGenerateMeetingFlow`
    (lines 885-886): the state committed before the handler first awaits. -/
def meetingFlowStart (s : AppState) : AppState :=
  { s with isGeneratingMeeting := true, error := "" }

/-- The continuation of `handleGenerateMeetingFlow` that runs when the
    `/api/generate_meeting_dossier` response arrives (lines 905-907 plus the
    `finally`).  It writes the response into whatever state is current at
    arrival time; the source contains no epoch or generation counter. -/
def meetingFlowApplyResponse (s : AppState) (resp : String) : AppState :=
  { s with meetingDossier := some resp,
           activeDossierTab := "meeting",
           warning := "Meeting Flow Dossier generated successfully.",
           isGeneratingMeeting := false }

/-- `handleGenerateMeetingFlow` from `frontend/src/App.js` (lines 882-914).
    `analysisOutcome` is the result of the `/api/analyze_multiple_threads`
    call (consulted only when no analysis result is cached) and `genOutcome`
    the result of `/api/generate_meeting_dossier`.  A freshly fetched
    analysis is deliberately not written into `analysisResults` (the
    `setAnalysisResults` call is commented out in the source). -/
def handleGenerateMeetingFlow (s : AppState)
    (analysisOutcome : Except Unit AnalysisResult)
    (genOutcome : Except Unit String) : AppState × List ServiceCall :=
  if s.processedMetadata.isNone then (s, [])
  else
    let s1 := meetingFlowStart s
    let failState :=
      { s1 with
          error := "An error occurred while generating meeting flow. Please try again.",
          isGeneratingMeeting := false }
    match s.analysisResults with
    | some a =>
        let call := ServiceCall.generateMeetingDossier a
        match genOutcome with
        | .ok resp => (meetingFlowApplyResponse s1 resp, [call])
        | .error _ => (failState, [call])
    | none =>
        let ids := (s.processedMetadata.getD ⟨[], []⟩).processed_thread_ids
        let aCall := ServiceCall.analyzeMultipleThreads ids
        match analysisOutcome with
        | .error _ => (failState, [aCall])
        | .ok a =>
            let gCall := ServiceCall.generateMeetingDossier a
            match genOutcome with
            | .ok resp => (meetingFlowApplyResponse s1 resp, [aCall, gCall])
            | .error _ => (failState, [aCall, gCall])

/-- The truthiness chain `analysisResults && analysisResults.structured_analysis
    && analysisResults.structured_analysis.client_name` collapsed to the
    AI-extracted client name, with the empty string for a falsy chain. -/
def aiClientName (analysisResults : Option AnalysisResult) : String :=
  match analysisResults with
  | some ar =>
      match ar.structured_analysis with
      | some sa => sa.client_name
      | none => ""
  | none => ""

/-- The client-name resolution chain of
    `handleGenerateClientDossierFromMetadata` (`frontend/src/App.js`
    lines 919-943): the cascading if/else-if over the custom input, the
    dropdown selection, the AI-extracted name and the metadata-derived
    candidate list, starting from the default string literal
    `Unknown Client`.  Note that when the AI branch or the candidates
    branch is entered but its sentinel check fails, the chain does not
    fall through to a later branch: `clientName` keeps its default. -/
def resolveClientName (showCustomClientInput : Bool)
    (customClientName selectedClientName : String)
    (analysisResults : Option AnalysisResult)
    (availableClientNames : List String) : String :=
  if showCustomClientInput ∧ jsTrim customClientName ≠ "" then
    jsTrim customClientName
  else if selectedClientName ≠ "" ∧ selectedClientName ≠ "custom" then
    selectedClientName
  else if aiClientName analysisResults ≠ "" then
    let a := aiClientName analysisResults
    if jsToLower a ≠ "unknown client" then a else "Unknown Client"
  else if availableClientNames.length > 0 then
    let m := availableClientNames.headD ""
    if m ≠ "" ∧ jsToLower m ≠ "unknown client" then m else "Unknown Client"
  else "Unknown Client"

/-- The resolved client identity: `none` when the chain ends in the guard
    `if (!clientName || clientName === 'Unknown Client')` and the handler
    errors out without generating. -/
def resolvedClient (showCustomClientInput : Bool)
    (customClientName selectedClientName : String)
    (analysisResults : Option AnalysisResult)
    (availableClientNames : List String) : Option String :=
  let n := resolveClientName showCustomClientInput customClientName
      selectedClientName analysisResults availableClientNames
  if n = "" ∨ n = "Unknown Client" then none else some n

/-- `handleGenerateClientDossierFromMetadata` from `frontend/src/App.js`
    (lines 916-969).  `outcome` is the result of the
    `/api/generate_client_dossier` call.  No analysis call appears in this
    handler. -/
def handleGenerateClientDossierFromMetadata (s : AppState)
    (outcome : Except Unit String) : AppState × List ServiceCall :=
  if s.processedMetadata.isNone then (s, [])
  else
    let meta := s.processedMetadata.getD ⟨[], []⟩
    let clientName := resolveClientName s.showCustomClientInput
        s.customClientName s.selectedClientName s.analysisResults
        meta.available_client_names
    if clientName = "" ∨ clientName = "Unknown Client" then
      ({ s with error :=
          "No client name found in the processed threads. Cannot generate client dossier." },
       [])
    else
      let s1 := { s with isGeneratingClient := true, error := "" }
      let call := ServiceCall.generateClientDossier clientName
      match outcome with
      | .ok resp =>
          ({ s1 with clientDossier := some resp,
                     activeDossierTab := "client",
                     warning := "Client Dossier for " ++ clientName ++
                       " generated successfully.",
                     isGeneratingClient := false }, [call])
      | .error _ =>
          ({ s1 with
               error := "An error occurred while generating client dossier. Please try again.",
               isGeneratingClient := false }, [call])

/-- `handleAnalyzeSelected` from `frontend/src/App.js` (lines 971-1014),
    including the nested `validateClientName` call with its own catch.
    `outcome` is the analysis response, `validationOutcome` the
    `/api/validate_client_name` response. -/
def handleAnalyzeSelected (s : AppState)
    (outcome : Except Unit AnalysisResult)
    (validationOutcome : Except Unit ClientValidation) :
    AppState × List ServiceCall :=
  if s.selectedThreads.length = 0 then (s, [])
  else
    let s1 := { s with isAnalyzing := true, analysisResults := none,
                       dossier := none }
    let call := if s.selectedThreads.length = 1 then
        ServiceCall.analyzeThread (s.selectedThreads.headD "")
      else ServiceCall.analyzeMultipleThreads s.selectedThreads
    match outcome with
    | .ok r =>
        let s2 := { s1 with analysisResults := some r }
        let s3 :=
          if r.available_client_names.length > 0 then
            -- Auto-select the first client name only if exactly one is
            -- available; otherwise clear the selection so the user chooses.
            if r.available_client_names.length = 1 then
              { s2 with availableClientNames := r.available_client_names,
                        selectedClientName := r.available_client_names.headD "" }
            else
              { s2 with availableClientNames := r.available_client_names,
                        selectedClientName := "" }
          else
            { s2 with availableClientNames := [], selectedClientName := "" }
        let s4 := match validationOutcome with
          | .ok v => { s3 with clientValidation := v }
          | .error _ =>
              { s3 with clientValidation :=
                  ⟨false, "", "Error validating client name"⟩ }
        ({ s4 with isAnalyzing := false }, [call, ServiceCall.validateClientName])
    | .error _ =>
        ({ s1 with error := "An error occurred during analysis. Please try again.",
                   isAnalyzing := false }, [call])

/-- `handleGenerateClientDossier` from `frontend/src/App.js`
    (lines 1035-1059): the simpler generation path used after an explicit
    analysis, choosing `selectedClientName || clientValidation.client_name`. -/
def handleGenerateClientDossier (s : AppState)
    (outcome : Except Unit String) : AppState × List ServiceCall :=
  let clientNameToUse := if s.selectedClientName ≠ "" then s.selectedClientName
    else s.clientValidation.client_name
  if clientNameToUse = "" then
    ({ s with error := "Please select a client name from the available options." }, [])
  else
    let s1 := { s with isGeneratingClient := true, error := "" }
    let call := ServiceCall.generateClientDossier clientNameToUse
    match outcome with
    | .ok resp =>
        ({ s1 with clientDossier := some resp, isGeneratingClient := false }, [call])
    | .error _ =>
        ({ s1 with
             error := "An error occurred while generating the client dossier.",
             isGeneratingClient := false }, [call])

/-! ## TextNormalizer: `parseCrewAIOutput` from `src/utils/parseOutput.js`

Each `String.replace` of the source is embedded as a character scanner with
the same semantics (leftmost, non-overlapping, continuing after each
replacement).  The `m`-flagged anchored patterns act line by line, so they
are embedded as per-line transformers.  `.` in the patterns does not match
a line break; inputs are assumed free of carriage returns, as every string
the application feeds through this function is LF-separated model output. -/

/-- First index at which `pat` occurs in `l`, scanning from index `i`. -/
def firstOccAux (pat : List Char) : List Char → Nat → Option Nat
  | [], i => if pat = [] then some i else none
  | c :: rest, i =>
      if pat.isPrefixOf (c :: rest) then some i else firstOccAux pat rest (i + 1)

/-- First index at which `pat` occurs in `l`. -/
def firstOcc (pat l : List Char) : Option Nat := firstOccAux pat l 0

/-- Last index at which `pat` occurs in `l`, scanning from index `i` with
    accumulator `acc`. -/
def lastOccAux (pat : List Char) : List Char → Nat → Option Nat → Option Nat
  | [], _, acc => acc
  | c :: rest, i, acc =>
      lastOccAux pat rest (i + 1)
        (if pat.isPrefixOf (c :: rest) then some i else acc)

/-- Last index at which `pat` occurs in `l`. -/
def lastOcc (pat l : List Char) : Option Nat := lastOccAux pat l 0 none

/-- The lazy group of `\*\*(.*?)\*\*`: the content up to the earliest `**`
    on the same line, together with the characters after that closing
    marker; `none` when no closing `**` occurs before a line break. -/
def findCloseBold : List Char → Option (List Char × List Char)
  | [] => none
  | '\n' :: _ => none
  | '*' :: '*' :: rest => some ([], rest)
  | c :: rest => (findCloseBold rest).map (fun p => (c :: p.1, p.2))

/-- `.replace(/\*\*(.*?)\*\*\/g, '<strong>$1</strong>')`.  `fuel` bounds the
    recursion; it is initialised to the length of the list, which suffices
    because every step consumes at least one character. -/
def boldAux : Nat → List Char → List Char
  | 0, l => l
  | _ + 1, [] => []
  | fuel + 1, c :: rest =>
      if c = '*' then
        match rest with
        | '*' :: rest2 =>
            match findCloseBold rest2 with
            | some (content, after) =>
                "<strong>".data ++ content ++ "</strong>".data ++
                  boldAux fuel after
            | none => '*' :: boldAux fuel ('*' :: rest2)
        | _ => c :: boldAux fuel rest
      else c :: boldAux fuel rest

/-- The lazy group of `\*(.*?)\*`: content up to the earliest `*` on the
    same line. -/
def findCloseItal : List Char → Option (List Char × List Char)
  | [] => none
  | '\n' :: _ => none
  | '*' :: rest => some ([], rest)
  | c :: rest => (findCloseItal rest).map (fun p => (c :: p.1, p.2))

/-- `.replace(/\*(.*?)\*\/g, '<em>$1</em>')`. -/
def italAux : Nat → List Char → List Char
  | 0, l => l
  | _ + 1, [] => []
  | fuel + 1, c :: rest =>
      if c = '*' then
        match findCloseItal rest with
        | some (content, after) =>
            "<em>".data ++ content ++ "</em>".data ++ italAux fuel after
        | none => '*' :: italAux fuel rest
      else c :: italAux fuel rest

/-- Split a character list into its LF-separated lines. -/
def splitNl : List Char → List (List Char)
  | [] => [[]]
  | c :: rest =>
      if c = '\n' then [] :: splitNl rest
      else
        match splitNl rest with
        | [] => [[c]]
        | line :: more => (c :: line) :: more

/-- Rejoin LF-separated lines. -/
def joinNl : List (List Char) → List Char
  | [] => []
  | [line] => line
  | line :: more => line ++ '\n' :: joinNl more

/-- Apply a per-line transformer, as an `m`-anchored `^...(.*$)` replace does. -/
def mapLines (f : List Char → List Char) (l : List Char) : List Char :=
  joinNl ((splitNl l).map f)

/-- One line under `^<marker>(.*$)` → `<openTag>$1<closeTag>`. -/
def tagLine (marker openTag closeTag : List Char) (line : List Char) : List Char :=
  if marker.isPrefixOf line then openTag ++ line.drop marker.length ++ closeTag
  else line

/-- One line under `^\d+\. (.*$)` → `<li>$1</li>`. -/
def numberedLine (line : List Char) : List Char :=
  let ds := line.takeWhile Char.isDigit
  if ds ≠ [] ∧ ". ".data.isPrefixOf (line.drop ds.length) then
    "<li>".data ++ line.drop (ds.length + 2) ++ "</li>".data
  else line

/-- `.replace(/\n/g, '<br>')`. -/
def brStep : List Char → List Char
  | [] => []
  | c :: rest =>
      if c = '\n' then "<br>".data ++ brStep rest else c :: brStep rest

/-- `.replace(/(<li>.*<\/li>)/g, '<ul>$1</ul>')` on a string that no longer
    contains line breaks: the greedy group spans from the first `<li>` to
    the last `</li>`, so at most one replacement happens, wrapping that
    whole span. -/
def ulWrap (l : List Char) : List Char :=
  match firstOcc "<li>".data l, lastOcc "</li>".data l with
  | some p, some q =>
      if p + 4 ≤ q then
        l.take p ++ "<ul>".data ++ (l.drop p).take (q + 5 - p) ++
          "</ul>".data ++ l.drop (q + 5)
      else l
  | _, _ => l

/-- `.replace(/<br><br><br>/g, '<br><br>')`: a single left-to-right pass,
    continuing after each replacement. -/
def brCleanupAux : Nat → List Char → List Char
  | 0, l => l
  | _ + 1, [] => []
  | fuel + 1, c :: rest =>
      if "<br><br><br>".data.isPrefixOf (c :: rest) then
        "<br><br>".data ++ brCleanupAux fuel ((c :: rest).drop 12)
      else c :: brCleanupAux fuel rest

/-- `parseCrewAIOutput` from `src/utils/parseOutput.js` (lines 6-35): the
    replacement pipeline in source order.  (`if (!text) return ''` is the
    identity on the empty string, which the pipeline also maps to itself.) -/
def parseCrewAIOutput (s : String) : String :=
  let l0 := s.data
  let l1 := boldAux l0.length l0
  let l2 := italAux l1.length l1
  let l3 := mapLines (tagLine "### ".data "<h3>".data "</h3>".data) l2
  let l4 := mapLines (tagLine "## ".data "<h2>".data "</h2>".data) l3
  let l5 := mapLines (tagLine "# ".data "<h1>".data "</h1>".data) l4
  let l6 := mapLines (tagLine "- ".data "<li>".data "</li>".data) l5
  let l7 := mapLines numberedLine l6
  let l8 := brStep l7
  let l9 := ulWrap l8
  String.mk (brCleanupAux l9.length l9)

/-! Identity lemmas: each replacement pass leaves a string untouched when
its trigger characters are absent. -/

lemma boldAux_id : ∀ (fuel : Nat) (l : List Char), '*' ∉ l → boldAux fuel l = l := by
  intro fuel
  induction fuel with
  | zero => intro l _; rfl
  | succ n ih =>
    intro l h
    cases l with
    | nil => rfl
    | cons c rest =>
        have hc : ¬ c = '*' := fun e => h (by simp [e])
        have hr : '*' ∉ rest := fun hm => h (by simp [hm])
        simp only [boldAux, if_neg hc]
        rw [ih rest hr]

lemma italAux_id : ∀ (fuel : Nat) (l : List Char), '*' ∉ l → italAux fuel l = l := by
  intro fuel
  induction fuel with
  | zero => intro l _; rfl
  | succ n ih =>
    intro l h
    cases l with
    | nil => rfl
    | cons c rest =>
        have hc : ¬ c = '*' := fun e => h (by simp [e])
        have hr : '*' ∉ rest := fun hm => h (by simp [hm])
        simp only [italAux, if_neg hc]
        rw [ih rest hr]

lemma splitNl_ne_nil (l : List Char) : splitNl l ≠ [] := by
  cases l with
  | nil => simp [splitNl]
  | cons c rest =>
      simp only [splitNl]
      by_cases hc : c = '\n'
      · simp [hc]
      · rw [if_neg hc]
        cases splitNl rest <;> simp

lemma joinNl_splitNl : ∀ l : List Char, joinNl (splitNl l) = l := by
  intro l
  induction l with
  | nil => rfl
  | cons c rest ih =>
    by_cases hc : c = '\n'
    · subst hc
      simp only [splitNl, if_pos rfl]
      cases hs : splitNl rest with
      | nil => exact absurd hs (splitNl_ne_nil rest)
      | cons line more =>
          rw [hs] at ih
          simp only [joinNl]
          cases more <;> simp_all [joinNl]
    · simp only [splitNl, if_neg hc]
      cases hs : splitNl rest with
      | nil => exact absurd hs (splitNl_ne_nil rest)
      | cons line more =>
          rw [hs] at ih
          cases more <;> simp_all [joinNl]

lemma mem_of_mem_splitNl :
    ∀ (l : List Char) (line : List Char), line ∈ splitNl l →
      ∀ c ∈ line, c ∈ l := by
  intro l
  induction l with
  | nil => intro line hline c hc; simp [splitNl] at hline; simp [hline] at hc
  | cons a rest ih =>
    intro line hline c hc
    by_cases ha : a = '\n'
    · rw [splitNl.eq_def] at hline
      simp only [if_pos ha] at hline
      rcases List.mem_cons.mp hline with h | h
      · simp [h] at hc
      · exact List.mem_cons_of_mem _ (ih line h c hc)
    · rw [splitNl.eq_def] at hline
      simp only [if_neg ha] at hline
      cases hs : splitNl rest with
      | nil => exact absurd hs (splitNl_ne_nil rest)
      | cons line0 more =>
          rw [hs] at hline
          rcases List.mem_cons.mp hline with h | h
          · subst h
            rcases List.mem_cons.mp hc with h | h
            · simp [h]
            · exact List.mem_cons_of_mem _ (ih line0 (by simp [hs]) c h)
          · exact List.mem_cons_of_mem _ (ih line (by simp [hs, h]) c hc)

lemma mapLines_id (f : List Char → List Char) (l : List Char)
    (h : ∀ line ∈ splitNl l, f line = line) : mapLines f l = l := by
  unfold mapLines
  rw [List.map_congr_left h]
  simpa using joinNl_splitNl l

lemma isPrefixOf_mem {pat l : List Char} (hp : pat.isPrefixOf l) :
    ∀ c ∈ pat, c ∈ l := by
  intro c hc
  exact (List.isPrefixOf_iff_prefix.mp hp).subset hc

lemma tagLine_id (marker openT closeT line : List Char) (c : Char)
    (hm : c ∈ marker) (hline : c ∈ line → False) :
    tagLine marker openT closeT line = line := by
  unfold tagLine
  rw [if_neg]
  intro hp
  exact hline (isPrefixOf_mem hp c hm)

lemma numberedLine_id (line : List Char)
    (h : ∀ c ∈ line, c.isDigit = false) : numberedLine line = line := by
  unfold numberedLine
  have hds : line.takeWhile Char.isDigit = [] := by
    cases line with
    | nil => rfl
    | cons a rest =>
        rw [List.takeWhile_cons, if_neg]
        simp [h a (by simp)]
  rw [hds]
  simp

lemma brStep_id : ∀ (l : List Char), '\n' ∉ l → brStep l = l := by
  intro l
  induction l with
  | nil => intro _; rfl
  | cons c rest ih =>
    intro h
    have hc : ¬ c = '\n' := fun e => h (by simp [e])
    simp only [brStep, if_neg hc]
    rw [ih (fun hm => h (by simp [hm]))]

lemma firstOccAux_head_notMem {p0 : Char} {ps : List Char} :
    ∀ (l : List Char) (i : Nat), p0 ∉ l →
      firstOccAux (p0 :: ps) l i = none := by
  intro l
  induction l with
  | nil => intro i _; simp [firstOccAux]
  | cons c rest ih =>
    intro i h
    have hp : ¬ (p0 :: ps).isPrefixOf (c :: rest) = true := by
      intro hp
      exact h (isPrefixOf_mem hp p0 (by simp))
    simp only [firstOccAux]
    rw [if_neg hp, ih (i + 1) (fun hm => h (by simp [hm]))]

lemma ulWrap_id (l : List Char) (h : '<' ∉ l) : ulWrap l = l := by
  unfold ulWrap
  rw [show firstOcc "<li>".data l = none from firstOccAux_head_notMem l 0 h]

lemma brCleanupAux_id : ∀ (fuel : Nat) (l : List Char), '<' ∉ l →
    brCleanupAux fuel l = l := by
  intro fuel
  induction fuel with
  | zero => intro l _; rfl
  | succ n ih =>
    intro l h
    cases l with
    | nil => rfl
    | cons c rest =>
        have hp : ¬ ("<br><br><br>".data.isPrefixOf (c :: rest)) = true := by
          intro hp
          exact h (isPrefixOf_mem hp '<' (by simp))
        simp only [brCleanupAux]
        rw [if_neg hp, ih rest (fun hm => h (by simp [hm]))]

/-- The character condition under which every pass of `parseCrewAIOutput`
    is the identity: no markdown markers, no line breaks, no tag
    characters, no digits. -/
def plainChar (c : Char) : Bool :=
  !(c = '*' || c = '#' || c = '-' || c = '\n' || c = '<' || c.isDigit)

lemma parseCrewAIOutput_plain_id (s : String)
    (h : s.data.all plainChar = true) : parseCrewAIOutput s = s := by
  have hmem : ∀ c ∈ s.data, plainChar c = true := by
    intro c hc; exact List.all_eq_true.mp h c hc
  have hstar : '*' ∉ s.data := fun hm => by simpa [plainChar] using hmem _ hm
  have hhash : '#' ∉ s.data := fun hm => by simpa [plainChar] using hmem _ hm
  have hdash : '-' ∉ s.data := fun hm => by simpa [plainChar] using hmem _ hm
  have hnl : '\n' ∉ s.data := fun hm => by simpa [plainChar] using hmem _ hm
  have hlt : '<' ∉ s.data := fun hm => by simpa [plainChar] using hmem _ hm
  have hdig : ∀ c ∈ s.data, c.isDigit = false := by
    intro c hc
    have := hmem c hc
    simp only [plainChar, Bool.not_eq_true', Bool.or_eq_false_iff,
      decide_eq_false_iff_not] at this
    exact this.2
  unfold parseCrewAIOutput
  simp only []
  rw [boldAux_id _ _ hstar, italAux_id _ _ hstar,
      mapLines_id _ _ (fun line hl => tagLine_id _ _ _ line '#' (by simp)
        (fun hc => hhash (mem_of_mem_splitNl _ _ hl _ hc))),
      mapLines_id _ _ (fun line hl => tagLine_id _ _ _ line '#' (by simp)
        (fun hc => hhash (mem_of_mem_splitNl _ _ hl _ hc))),
      mapLines_id _ _ (fun line hl => tagLine_id _ _ _ line '#' (by simp)
        (fun hc => hhash (mem_of_mem_splitNl _ _ hl _ hc))),
      mapLines_id _ _ (fun line hl => tagLine_id _ _ _ line '-' (by simp)
        (fun hc => hdash (mem_of_mem_splitNl _ _ hl _ hc))),
      mapLines_id _ _ (fun line hl => numberedLine_id line
        (fun c hc => hdig c (mem_of_mem_splitNl _ _ hl _ hc))),
      brStep_id _ hnl, ulWrap_id _ hlt, brCleanupAux_id _ _ hlt]

/-! ## RelevancyGrouper / summary normalization

The bullet rewrite of `getConsolidatedSummaries` (the component of
`src/unnamed/part_008`, lines 194-224; the variant in
`ClientDossierReport.js` behaves identically on the cases at issue).  The
email regex `\b[A-Za-z0-9._%+-]+@[A-Za-z0-9.-]+\.[A-Z|a-z]{2,}\b` is
embedded as a backtracking scanner with JavaScript leftmost,
non-overlapping global-match semantics. -/

/-- `\w` of the JavaScript word-boundary assertion. -/
def isWordChar (c : Char) : Bool := c.isAlphanum || c = '_'

/-- The class `[A-Za-z0-9._%+-]` of the local part. -/
def isLocalChar (c : Char) : Bool :=
  c.isAlphanum || c = '.' || c = '_' || c = '%' || c = '+' || c = '-'

/-- The class `[A-Za-z0-9.-]` of the domain part. -/
def isDomainChar (c : Char) : Bool := c.isAlphanum || c = '.' || c = '-'

/-- The class `[A-Z|a-z]` of the final label (the literal `|` is part of
    the character class in the source pattern). -/
def isTldChar (c : Char) : Bool := c.isAlpha || c = '|'

/-- `\b` between a last consumed character and the remainder. -/
def boundaryAfter (last : Char) (rest : List Char) : Bool :=
  match rest with
  | [] => isWordChar last
  | c :: _ => isWordChar last != isWordChar c

/-- Greedy-descending search for the `[A-Z|a-z]{2,}\b` tail: the largest
    length `t ≤ bound` of leading final-label characters of `l` with
    `t ≥ 2` and a word boundary after them. -/
def tldDescend (l : List Char) : Nat → Option Nat
  | 0 => none
  | t + 1 =>
      if t + 1 < 2 then none
      else
        match (l.take (t + 1)).getLast? with
        | none => none
        | some last =>
            if boundaryAfter last (l.drop (t + 1)) then some (t + 1)
            else tldDescend l t

/-- Length matched by `[A-Z|a-z]{2,}\b` at the head of `l`, if any. -/
def tldMatchLen (l : List Char) : Option Nat :=
  tldDescend l (l.takeWhile isTldChar).length

/-- Try the dot of `[A-Za-z0-9.-]+\.` at index `jj` of the post-`@` text
    `d`; on success return the total length consumed from `d`. -/
def tryDot (d : List Char) (jj : Nat) : Option Nat :=
  if d.get? jj = some '.' then
    (tldMatchLen (d.drop (jj + 1))).map (fun t => jj + 1 + t)
  else none

/-- Greedy-descending search over dot positions `jj, jj-1, ..., 1` (a dot
    at index 0 would leave the `[A-Za-z0-9.-]+` part empty). -/
def domainDescend (d : List Char) : Nat → Option Nat
  | 0 => none
  | jj + 1 =>
      match tryDot d (jj + 1) with
      | some n => some n
      | none => domainDescend d jj

/-- Attempt the whole email pattern at the current position, given the
    previous character (for `\b`); returns the consumed length. -/
def matchEmailAt (prev : Option Char) (l : List Char) : Option Nat :=
  let wPrev := match prev with
    | none => false
    | some c => isWordChar c
  match l.head? with
  | none => none
  | some c0 =>
      if wPrev != isWordChar c0 then
        let loc := l.takeWhile isLocalChar
        if loc.length > 0 ∧ l.get? loc.length = some '@' then
          let d := l.drop (loc.length + 1)
          let m := (d.takeWhile isDomainChar).length
          match domainDescend d (m - 1) with
          | some n => some (loc.length + 1 + n)
          | none => none
        else none
      else none

/-- Global scan of `summary.match(emailRegex)`: leftmost matches, each scan
    resuming after the end of the previous match. -/
def scanEmailsAux : Nat → Option Char → List Char → List (List Char)
  | 0, _, _ => []
  | _ + 1, _, [] => []
  | fuel + 1, prev, c :: rest =>
      match matchEmailAt prev (c :: rest) with
      | some n =>
          ((c :: rest).take n) ::
            scanEmailsAux fuel (((c :: rest).take n).getLast? )
              ((c :: rest).drop n)
      | none => scanEmailsAux fuel (some c) rest

/-- All email-pattern matches in `s`, in order (`emailsInSummary`). -/
def extractEmails (s : String) : List String :=
  (scanEmailsAux s.data.length none s.data).map String.mk

/-- Case-insensitive global literal replace, for
    `.replace(/unknown sender/gi, name)`.  `patLower` is the lowercase
    pattern; matching lowercases the scanned text. -/
def replaceCIAux (patLower repl : List Char) : Nat → List Char → List Char
  | 0, l => l
  | _ + 1, [] => []
  | fuel + 1, c :: rest =>
      if patLower.isPrefixOf ((c :: rest).map Char.toLower) then
        repl ++ replaceCIAux patLower repl fuel ((c :: rest).drop patLower.length)
      else c :: replaceCIAux patLower repl fuel rest

/-- `updatedSummary.replace(/unknown sender/gi, name)`. -/
def replaceUnknownCI (s name : String) : String :=
  String.mk (replaceCIAux "unknown sender".data name.data s.data.length s.data)

/-- `updatedSummary.toLowerCase().includes('unknown sender')`. -/
def mentionsUnknownSender (s : String) : Bool :=
  (firstOcc "unknown sender".data (jsToLower s).data).isSome

/-- The bullet rewrite of `getConsolidatedSummaries`
    (`src/unnamed/part_008` lines 199-223).  `participants` is the
    `threadSummary.participants` object as an ordered association list of
    email key to display name (the empty string standing for a missing or
    empty `display_name`). -/
def rewriteSummary (participants : List (String × String)) (summary : String) :
    String :=
  if mentionsUnknownSender summary then
    let emails := extractEmails summary
    let afterEmails := emails.foldl (fun cur email =>
        match participants.lookup (jsToLower email) with
        | some name => if name ≠ "" then replaceUnknownCI cur name else cur
        | none => cur) summary
    if emails.isEmpty ∧ participants.length > 0 then
      let firstName := (participants.headD ("", "")).2
      if firstName ≠ "" then replaceUnknownCI afterEmails firstName
      else afterEmails
    else afterEmails
  else summary

/-! ## `getIrrelevantThreads` (AnalysisReport in `ClientDossierReport.js`,
lines 849-916): AI-processed irrelevant threads are passed through as-is;
raw relevancy threads get a synthesized fallback; with neither, basic
entries are built from combined metadata. -/

/-- A participant value inside a raw thread record; `display_name` and
    `email` use the empty string for a missing field
    (`p.display_name || p.email`). -/
structure RawParticipant where
  display_name : String
  email : String
  deriving Repr, DecidableEq

/-- A raw thread record from `relevancyAnalysis.irrelevant_threads`. -/
structure RawThread where
  subject : String
  message_count : Nat
  participants : List (String × RawParticipant)
  content_snippets : Option (List String)
  deriving Repr, DecidableEq

/-- A thread record of `combinedMetadata.threads` (the fields this
    function reads). -/
structure MetaThread where
  subject : String
  message_count : Nat
  deriving Repr, DecidableEq

/-- An entry of the list `getIrrelevantThreads` returns; optional fields
    model fields that may be absent on AI-supplied records. -/
structure IrrelevantDisplay where
  thread_subject : String
  summary : Option String
  reason_for_irrelevancy : Option String
  email_summaries : List String
  discussion_agenda : Option String
  deriving Repr, DecidableEq

/-- `rawThread.subject || `Thread ${index + 1}``. -/
def fallbackSubject (subject : String) (index : Nat) : String :=
  if subject ≠ "" then subject else "Thread " ++ toString (index + 1)

/-- ``Email ${idx + 1}: ${snippet.substring(0, 100)}${snippet.length > 100 ? '...' : ''}``. -/
def snippetLine (idx : Nat) (snippet : String) : String :=
  "Email " ++ toString (idx + 1) ++ ": " ++ String.mk (snippet.data.take 100) ++
    (if snippet.length > 100 then "..." else "")

/-- `List.map` carrying the element index, as the JavaScript
    `array.map((x, index) => ...)` does. -/
def mapWithIndex (f : Nat → α → β) : List α → List β :=
  go 0
where
  go : Nat → List α → List β
    | _, [] => []
    | i, a :: rest => f i a :: go (i + 1) rest

/-- The synthesized fallback built for one raw relevancy thread
    (`ClientDossierReport.js` lines 863-883). -/
def synthEntry (index : Nat) (rt : RawThread) : IrrelevantDisplay :=
  let threadSubject := fallbackSubject rt.subject index
  let participantNames := String.intercalate ", "
    (rt.participants.map (fun p =>
      if p.2.display_name ≠ "" then p.2.display_name else p.2.email))
  { thread_subject := threadSubject
    summary := some ("This thread contains " ++ toString rt.message_count ++
      " messages discussing \"" ++ threadSubject ++
      "\". The conversation involves " ++ toString rt.participants.length ++
      " participants: " ++ participantNames ++ ".")
    reason_for_irrelevancy := some ("This thread focuses on \"" ++
      threadSubject ++ "\" which is separate from other business discussions.")
    email_summaries :=
      match rt.content_snippets with
      | some snippets => mapWithIndex snippetLine (snippets.take 3)
      | none =>
          ["Initial contact regarding " ++ threadSubject,
           "Follow-up discussion about " ++ threadSubject,
           "Final communication on " ++ threadSubject]
    discussion_agenda := some ("Discussion focused on " ++ threadSubject ++
      " and related topics with " ++ toString rt.message_count ++
      " messages exchanged.") }

/-- The basic entry built from combined metadata when no irrelevant
    threads were found (`ClientDossierReport.js` lines 890-900). -/
def basicEntry (index : Nat) (t : MetaThread) : IrrelevantDisplay :=
  let subj := fallbackSubject t.subject index
  { thread_subject := subj
    summary := some ("This thread contains " ++ toString t.message_count ++
      " messages discussing \"" ++ subj ++ "\".")
    reason_for_irrelevancy :=
      some "Thread was analyzed separately due to low relevancy with other threads"
    email_summaries :=
      ["Initial contact regarding " ++ subj,
       "Follow-up discussion about " ++ subj,
       "Final communication on " ++ subj]
    discussion_agenda := some ("Discussion focused on " ++ subj ++
      " and related topics.") }

/-- `getIrrelevantThreads`.  `structuredIrr` is
    `structuredAnalysis.irrelevant_threads` when `hasStructured` holds and
    that field is an array; `relevancyIrr` is
    `relevancyAnalysis.irrelevant_threads` when present as an array;
    `combinedThreads` is `combinedMetadata.threads` when present. -/
def getIrrelevantThreads (structuredIrr : Option (List IrrelevantDisplay))
    (relevancyIrr : Option (List RawThread))
    (combinedThreads : Option (List MetaThread)) : List IrrelevantDisplay :=
  let base :=
    match structuredIrr with
    | some ts => ts
    | none =>
        match relevancyIrr with
        | some rts => mapWithIndex synthEntry rts
        | none => []
  if base.length = 0 then
    match combinedThreads with
    | some ts => mapWithIndex basicEntry ts
    | none => base
  else base

/-- The rendered Thread Summary text for an entry:
    `thread.summary || 'No detailed summary available for this thread.'`
    (`ClientDossierReport.js` line 1257). -/
def displayedSummary (e : IrrelevantDisplay) : String :=
  if e.summary.getD "" ≠ "" then e.summary.getD ""
  else "No detailed summary available for this thread."

/-! ## Concrete states used to instantiate the theorems -/

/-- A baseline idle component state. -/
def sampleState : AppState :=
  { startDate := 0, endDate := 10, keyword := "invoice", senderEmail := "",
    isLoading := false, error := "", warning := "", searchResults := [],
    selectedThreads := [], isProcessing := false, processedMetadata := none,
    isAnalyzing := false, analysisResults := none, keywordError := false,
    dossier := none, meetingDossier := none, clientDossier := none,
    isGeneratingMeeting := false, isGeneratingClient := false,
    clientValidation := ⟨false, "", ""⟩, selectedClientName := "",
    availableClientNames := [], customClientName := "",
    showCustomClientInput := false, activeDossierTab := "agenda" }

/-- A state holding results of every earlier pipeline stage, used to
    exhibit what a failed transition does to them. -/
def loadedState : AppState :=
  { sampleState with
      keyword := "", senderEmail := "",
      searchResults := ["T1", "T2", "T3"],
      selectedThreads := ["T1", "T2"],
      processedMetadata := some ⟨["T1", "T2"], ["Acme Corp"]⟩,
      analysisResults := some ⟨some ⟨"Acme Corp"⟩, ["Acme Corp"]⟩,
      dossier := some "past", meetingDossier := some "meeting",
      clientDossier := some "client" }

/-- A state in the `Processed` stage with no cached analysis result. -/
def processedState : AppState :=
  { sampleState with
      searchResults := ["T1", "T2", "T3"],
      selectedThreads := ["T1", "T2"],
      processedMetadata := some ⟨["T1", "T2"], ["Acme Corp"]⟩ }

/-- A `Processed` state whose metadata carries two client-name candidates
    and no user selection. -/
def multiCandidateState : AppState :=
  { sampleState with
      selectedThreads := ["T1"],
      processedMetadata := some ⟨["T1"], ["Acme Corp", "Beta LLC"]⟩ }

/-! ## Claims -/

/-- C3: a search whose keyword and sender email are both blank after
    trimming, or whose start date is after its end date, fails validation
    with an error message and issues no network request; a search with at
    least one non-blank criterion and an ordered date range passes
    validation and issues exactly the find-threads request. -/
theorem search_validation_gate (s : AppState) (o : Except String (List String)) :
    (((jsTrim s.keyword = "" ∧ jsTrim s.senderEmail = "") ∨ s.startDate > s.endDate) →
        (handleSearch s o).2 = [] ∧ (handleSearch s o).1.error ≠ "") ∧
    ((jsTrim s.keyword ≠ "" ∨ jsTrim s.senderEmail ≠ "") → s.startDate ≤ s.endDate →
        (handleSearch s o).2 =
          [ServiceCall.findThreads s.startDate s.endDate (orNull s.keyword)
            (orNull s.senderEmail)]) := by
  constructor
  · intro h
    by_cases h1 : jsTrim s.keyword = "" ∧ jsTrim s.senderEmail = ""
    · simp [handleSearch, h1]
    · have h2 : s.startDate > s.endDate := by tauto
      simp [handleSearch, h1, h2]
  · intro hk hd
    have h1 : ¬(jsTrim s.keyword = "" ∧ jsTrim s.senderEmail = "") := by tauto
    have h2 : ¬(s.startDate > s.endDate) := not_lt.mpr hd
    rcases o with data | e <;> simp [handleSearch, h1, h2]

/-- Witness for C3: the two sides of `search_validation_gate` at concrete
    states (blank criteria, and a valid keyword search). -/
theorem search_validation_gate_witness :
    ((handleSearch loadedState (Except.error "network down")).2 = [] ∧
      (handleSearch loadedState (Except.error "network down")).1.error ≠ "") ∧
    (handleSearch sampleState (Except.ok ["T1", "T2", "T3"])).2 =
      [ServiceCall.findThreads 0 10 (some "invoice") none] :=
  ⟨(search_validation_gate loadedState (Except.error "network down")).1
      (by decide),
   (search_validation_gate sampleState (Except.ok ["T1", "T2", "T3"])).2
      (by decide) (by decide)⟩

/-- C10: every stage handler that sets its in-flight flag clears it again
    on every settlement path (the `finally` blocks), and the handlers that
    can return before setting it leave it untouched; hence a stage whose
    flag is down before a handler runs has its flag down after the handler
    settles, whichever way the underlying calls went. -/
theorem stage_flags_cleared (s : AppState) (o1 : Except String (List String))
    (o2 : Except Unit ProcessedMetadata) (o3 o4 : Except Unit AnalysisResult)
    (o5 : Except Unit ClientValidation) (o6 o7 : Except Unit String) :
    (handleSearch s o1).1.isLoading = false ∧
    (s.isProcessing = false → (handleProcessThreads s o2).1.isProcessing = false) ∧
    (s.isAnalyzing = false → (handleGeneratePastSummary s o3).1.isAnalyzing = false) ∧
    (s.isAnalyzing = false → (handleAnalyzeSelected s o4 o5).1.isAnalyzing = false) ∧
    (s.isGeneratingMeeting = false →
      (handleGenerateMeetingFlow s o3 o6).1.isGeneratingMeeting = false) ∧
    (s.isGeneratingClient = false →
      (handleGenerateClientDossierFromMetadata s o7).1.isGeneratingClient = false) ∧
    (s.isGeneratingClient = false →
      (handleGenerateClientDossier s o7).1.isGeneratingClient = false) := by
  refine ⟨?_, ?_, ?_, ?_, ?_, ?_, ?_⟩ <;>
    (try intro h) <;>
    simp only [handleSearch, handleProcessThreads, handleGeneratePastSummary,
      handleAnalyzeSelected, handleGenerateMeetingFlow, meetingFlowStart,
      meetingFlowApplyResponse, handleGenerateClientDossierFromMetadata,
      handleGenerateClientDossier] <;>
    (repeat' split) <;> simp_all

/-- Witness for C10: the flag-preservation conjuncts of
    `stage_flags_cleared` at a concrete idle state and failing outcomes. -/
theorem stage_flags_cleared_witness :
    (handleProcessThreads processedState (Except.error ())).1.isProcessing = false ∧
    (handleGenerateMeetingFlow processedState (Except.error ())
        (Except.error ())).1.isGeneratingMeeting = false :=
  ⟨(stage_flags_cleared processedState (Except.error "e") (Except.error ())
      (Except.error ()) (Except.error ()) (Except.error ()) (Except.error ())
      (Except.error ())).2.1 (by decide),
   (stage_flags_cleared processedState (Except.error "e") (Except.error ())
      (Except.error ()) (Except.error ()) (Except.error ()) (Except.error ())
      (Except.error ())).2.2.2.2.1 (by decide)⟩

/-- Counterexample to C4: `handleSearch` clears the thread list, the
    selection, the processed metadata, the analysis result and every
    dossier at entry, before validating, so a search that fails validation
    (and makes no network call) leaves the coordinator in the cleared
    state, not in the state prior to the failed transition. -/
theorem failed_search_clears_state_counterexample :
    (handleSearch loadedState (Except.error "network down")).2 = [] ∧
    (handleSearch loadedState (Except.error "network down")).1.error ≠ "" ∧
    loadedState.searchResults = ["T1", "T2", "T3"] ∧
    (handleSearch loadedState (Except.error "network down")).1.searchResults = [] ∧
    loadedState.processedMetadata ≠ none ∧
    (handleSearch loadedState (Except.error "network down")).1.processedMetadata
      = none ∧
    loadedState.meetingDossier ≠ none ∧
    (handleSearch loadedState (Except.error "network down")).1.meetingDossier
      = none := by
  decide

/-- C4 (amended): a failed generation stage (meeting flow or client
    dossier) leaves the thread list, the selection, the metadata, the
    analysis result and all dossiers exactly as they were, so those stages
    are retryable in place; but search clears all downstream data at entry
    and process clears metadata and analysis at entry, so their failed
    attempts leave the cleared state rather than the prior state. -/
theorem stage_failure_state_effects (s : AppState)
    (ao : Except Unit AnalysisResult) (e : String) :
    ((handleGenerateMeetingFlow s ao (Except.error ())).1.searchResults =
        s.searchResults ∧
      (handleGenerateMeetingFlow s ao (Except.error ())).1.selectedThreads =
        s.selectedThreads ∧
      (handleGenerateMeetingFlow s ao (Except.error ())).1.processedMetadata =
        s.processedMetadata ∧
      (handleGenerateMeetingFlow s ao (Except.error ())).1.analysisResults =
        s.analysisResults ∧
      (handleGenerateMeetingFlow s ao (Except.error ())).1.dossier = s.dossier ∧
      (handleGenerateMeetingFlow s ao (Except.error ())).1.meetingDossier =
        s.meetingDossier ∧
      (handleGenerateMeetingFlow s ao (Except.error ())).1.clientDossier =
        s.clientDossier) ∧
    ((handleGenerateClientDossierFromMetadata s (Except.error ())).1.searchResults =
        s.searchResults ∧
      (handleGenerateClientDossierFromMetadata s (Except.error ())).1.selectedThreads =
        s.selectedThreads ∧
      (handleGenerateClientDossierFromMetadata s (Except.error ())).1.processedMetadata =
        s.processedMetadata ∧
      (handleGenerateClientDossierFromMetadata s (Except.error ())).1.analysisResults =
        s.analysisResults ∧
      (handleGenerateClientDossierFromMetadata s (Except.error ())).1.dossier =
        s.dossier ∧
      (handleGenerateClientDossierFromMetadata s (Except.error ())).1.meetingDossier =
        s.meetingDossier ∧
      (handleGenerateClientDossierFromMetadata s (Except.error ())).1.clientDossier =
        s.clientDossier) ∧
    ((handleSearch s (Except.error e)).1.searchResults = [] ∧
      (handleSearch s (Except.error e)).1.selectedThreads = [] ∧
      (handleSearch s (Except.error e)).1.processedMetadata = none ∧
      (handleSearch s (Except.error e)).1.analysisResults = none ∧
      (handleSearch s (Except.error e)).1.meetingDossier = none ∧
      (handleSearch s (Except.error e)).1.clientDossier = none) ∧
    (s.selectedThreads ≠ [] →
      (handleProcessThreads s (Except.error ())).1.processedMetadata = none ∧
      (handleProcessThreads s (Except.error ())).1.analysisResults = none) := by
  refine ⟨?_, ?_, ?_, ?_⟩ <;>
    (try intro h) <;>
    simp only [handleGenerateMeetingFlow, meetingFlowStart,
      meetingFlowApplyResponse, handleGenerateClientDossierFromMetadata,
      handleSearch, handleProcessThreads] <;>
    (repeat' split) <;> simp_all

/-- Witness for C4 (amended): at a loaded state, a failed meeting-flow
    generation preserves the cached analysis and dossiers, and a failed
    process call leaves metadata and analysis cleared. -/
theorem stage_failure_state_effects_witness :
    (handleGenerateMeetingFlow loadedState (Except.error ())
        (Except.error ())).1.analysisResults = loadedState.analysisResults ∧
    (handleProcessThreads loadedState (Except.error ())).1.processedMetadata
      = none :=
  ⟨(stage_failure_state_effects loadedState (Except.error ()) "e").1.2.2.2.1,
   ((stage_failure_state_effects loadedState (Except.error ()) "e").2.2.2
      (by decide)).1⟩

/-- A concrete analysis response used to instantiate generation runs. -/
def sampleAnalysis : AnalysisResult := ⟨some ⟨"Acme Corp"⟩, ["Acme Corp"]⟩

/-- Counterexample to C5: in the `Processed` state with no cached
    analysis result, generating the client dossier issues no
    analysis-service call at all — the trace of the run is exactly one
    dossier-generation request. -/
theorem client_dossier_skips_analysis_counterexample :
    processedState.analysisResults = none ∧
    processedState.processedMetadata ≠ none ∧
    (handleGenerateClientDossierFromMetadata processedState (Except.ok "D")).2 =
      [ServiceCall.generateClientDossier "Acme Corp"] := by
  decide

/-- C5 (amended): with no cached analysis, meeting-flow generation issues
    one analysis call and then one dossier-generation call, in that order,
    but does not cache the analysis result; with a cached analysis it
    reuses it and issues only the dossier call.  Past-summary generation
    issues one analysis call and caches the result when no cache exists,
    and issues no call when one exists.  Client-dossier generation issues
    only the dossier call, never an analysis call. -/
theorem generation_call_traces (s : AppState) (m : ProcessedMetadata)
    (a : AnalysisResult) (r : String) (n : String)
    (ao : Except Unit AnalysisResult) :
    (s.processedMetadata = some m → s.analysisResults = none →
      (handleGenerateMeetingFlow s (Except.ok a) (Except.ok r)).2 =
        [ServiceCall.analyzeMultipleThreads m.processed_thread_ids,
         ServiceCall.generateMeetingDossier a] ∧
      (handleGenerateMeetingFlow s (Except.ok a) (Except.ok r)).1.analysisResults
        = none) ∧
    (s.processedMetadata = some m → s.analysisResults = some a →
      (handleGenerateMeetingFlow s ao (Except.ok r)).2 =
        [ServiceCall.generateMeetingDossier a]) ∧
    (s.processedMetadata = some m → s.analysisResults = none →
      (handleGeneratePastSummary s (Except.ok a)).2 =
        [ServiceCall.analyzeMultipleThreads m.processed_thread_ids] ∧
      (handleGeneratePastSummary s (Except.ok a)).1.analysisResults = some a) ∧
    (s.processedMetadata = some m → s.analysisResults = some a →
      (handleGeneratePastSummary s ao).2 = []) ∧
    (s.processedMetadata = some m →
      resolvedClient s.showCustomClientInput s.customClientName
        s.selectedClientName s.analysisResults m.available_client_names
        = some n →
      (handleGenerateClientDossierFromMetadata s (Except.ok r)).2 =
        [ServiceCall.generateClientDossier n]) := by
  refine ⟨?_, ?_, ?_, ?_, ?_⟩
  · intro h1 h2
    simp [handleGenerateMeetingFlow, meetingFlowStart,
      meetingFlowApplyResponse, h1, h2]
  · intro h1 h2
    simp [handleGenerateMeetingFlow, meetingFlowStart,
      meetingFlowApplyResponse, h1, h2]
  · intro h1 h2
    simp [handleGeneratePastSummary, h1, h2]
  · intro h1 h2
    simp [handleGeneratePastSummary, h1, h2]
  · intro h1 h2
    unfold resolvedClient at h2
    by_cases hc : resolveClientName s.showCustomClientInput s.customClientName
        s.selectedClientName s.analysisResults m.available_client_names = "" ∨
        resolveClientName s.showCustomClientInput s.customClientName
          s.selectedClientName s.analysisResults m.available_client_names
          = "Unknown Client"
    · simp [hc] at h2
    · simp only [hc, if_neg, Option.some.injEq, if_false] at h2
      rw [h2] at hc
      simp [handleGenerateClientDossierFromMetadata, h1, hc, h2]

/-- Witness for C5 (amended): the meeting-flow trace with no cached
    analysis, and the client-dossier trace, at a concrete processed
    state. -/
theorem generation_call_traces_witness :
    (handleGenerateMeetingFlow processedState (Except.ok sampleAnalysis)
        (Except.ok "MF")).2 =
      [ServiceCall.analyzeMultipleThreads ["T1", "T2"],
       ServiceCall.generateMeetingDossier sampleAnalysis] ∧
    (handleGenerateClientDossierFromMetadata processedState
        (Except.ok "CD")).2 =
      [ServiceCall.generateClientDossier "Acme Corp"] :=
  ⟨((generation_call_traces processedState ⟨["T1", "T2"], ["Acme Corp"]⟩
      sampleAnalysis "MF" "Acme Corp" (Except.error ())).1
        (by decide) (by decide)).1,
   (generation_call_traces processedState ⟨["T1", "T2"], ["Acme Corp"]⟩
      sampleAnalysis "CD" "Acme Corp" (Except.error ())).2.2.2.2
        (by decide) (by decide)⟩

/-- Counterexample to C6: start a meeting-flow generation (its synchronous
    prefix commits), run a complete new search that resets the dossier
    state, then let the outstanding meeting-dossier response arrive: the
    stale response is written into the post-search state.  The source has
    no generation or epoch counter, so nothing discards it. -/
theorem stale_meeting_response_counterexample :
    (handleSearch
        (meetingFlowStart
          { processedState with analysisResults := some sampleAnalysis })
        (Except.ok ["T9"])).1.meetingDossier = none ∧
    (meetingFlowApplyResponse
        (handleSearch
          (meetingFlowStart
            { processedState with analysisResults := some sampleAnalysis })
          (Except.ok ["T9"])).1
        "stale meeting flow").meetingDossier = some "stale meeting flow" := by
  decide

/-- C6 (amended): a meeting-dossier response arriving after a newer search
    is written into the coordinator state unconditionally — the arrival
    continuation stores whatever response it receives, and no epoch
    comparison exists to discard a stale one. -/
theorem stale_responses_applied (s : AppState)
    (o : Except String (List String)) (resp : String) :
    (meetingFlowApplyResponse ((handleSearch (meetingFlowStart s) o).1)
        resp).meetingDossier = some resp := by
  simp [meetingFlowApplyResponse]

/-- Counterexample to C1: the user-supplied custom client name
    `Unknown Client` is non-empty, yet resolution does not produce it — the
    final guard of the handler compares the resolved name against the
    literal `Unknown Client` and reports the client as unresolved. -/
theorem custom_name_not_always_winning_counterexample :
    ("Unknown Client" : String) ≠ "" ∧
    resolvedClient true "Unknown Client" "" none ["Acme Corp"] = none := by
  decide

/-- C1 (amended): the custom name wins only when the custom-input toggle
    is on, its trimmed value is non-empty, and that value is not the
    literal `Unknown Client`; and when the AI-extracted name is present
    but case-insensitively equals `unknown client`, resolution fails
    without consulting the domain candidates (the chain does not fall
    through), whatever candidates are available. -/
theorem client_resolution_precedence (custom sel : String)
    (ar : AnalysisResult) (ai : Option AnalysisResult) (cands : List String) :
    (jsTrim custom ≠ "" → jsTrim custom ≠ "Unknown Client" →
      resolvedClient true custom sel ai cands = some (jsTrim custom)) ∧
    (aiClientName (some ar) ≠ "" →
      jsToLower (aiClientName (some ar)) = "unknown client" →
      resolvedClient false "" "" (some ar) cands = none) := by
  constructor
  · intro h1 h2
    simp [resolvedClient, resolveClientName, h1, h2]
  · intro h1 h2
    simp [resolvedClient, resolveClientName, h1, h2]

/-- Witness for C1 (amended): a custom name wins over every other signal,
    and the `unknown client` sentinel from the AI blocks the candidate
    list. -/
theorem client_resolution_precedence_witness :
    resolvedClient true "Globex Corp" "Beta LLC" (some sampleAnalysis)
      ["Acme Corp"] = some "Globex Corp" ∧
    resolvedClient false "" "" (some ⟨some ⟨"Unknown Client"⟩, []⟩)
      ["Acme Corp"] = none :=
  ⟨((client_resolution_precedence "Globex Corp" "Beta LLC" sampleAnalysis
      (some sampleAnalysis) ["Acme Corp"]).1 (by decide) (by decide)).trans
      (by decide),
   (client_resolution_precedence "Globex Corp" "Beta LLC"
      ⟨some ⟨"Unknown Client"⟩, []⟩ (some sampleAnalysis) ["Acme Corp"]).2
      (by decide) (by decide)⟩

/-- Counterexample to C2: with two domain-derived candidates, no user
    selection, no custom name and no AI-extracted name, the
    metadata-driven generation path does not wait for a user choice: it
    resolves to the first candidate and issues the dossier-generation
    request with it. -/
theorem multi_candidate_autopick_counterexample :
    multiCandidateState.selectedClientName = "" ∧
    multiCandidateState.processedMetadata =
      some ⟨["T1"], ["Acme Corp", "Beta LLC"]⟩ ∧
    (handleGenerateClientDossierFromMetadata multiCandidateState
        (Except.ok "D")).2 = [ServiceCall.generateClientDossier "Acme Corp"] ∧
    (handleGenerateClientDossierFromMetadata multiCandidateState
        (Except.ok "D")).1.clientDossier = some "D" := by
  decide

/-- C2 (amended): after an analysis response, more than one candidate is
    never auto-selected — all candidates are reported and the selection is
    cleared for an explicit user choice, while exactly one candidate is
    auto-selected; but the metadata fallback of the client-dossier handler
    auto-resolves the first of several candidates. -/
theorem candidate_choice_behavior (s : AppState) (r : AnalysisResult)
    (v : Except Unit ClientValidation) (c1 c2 : String) (cs : List String) :
    (s.selectedThreads ≠ [] → r.available_client_names = c1 :: c2 :: cs →
      (handleAnalyzeSelected s (Except.ok r) v).1.selectedClientName = "" ∧
      (handleAnalyzeSelected s (Except.ok r) v).1.availableClientNames =
        c1 :: c2 :: cs) ∧
    (s.selectedThreads ≠ [] → r.available_client_names = [c1] →
      (handleAnalyzeSelected s (Except.ok r) v).1.selectedClientName = c1) ∧
    (c1 ≠ "" → jsToLower c1 ≠ "unknown client" →
      resolvedClient false "" "" none (c1 :: c2 :: cs) = some c1) := by
  refine ⟨?_, ?_, ?_⟩
  · intro h hr
    have h0 : ¬ s.selectedThreads.length = 0 := by
      simpa [List.length_eq_zero] using h
    rcases v with v | v <;> simp [handleAnalyzeSelected, h0, hr]
  · intro h hr
    have h0 : ¬ s.selectedThreads.length = 0 := by
      simpa [List.length_eq_zero] using h
    rcases v with v | v <;> simp [handleAnalyzeSelected, h0, hr]
  · intro h1 h2
    have h3 : c1 ≠ "Unknown Client" := by
      intro e; rw [e] at h2; exact h2 (by decide)
    simp [resolvedClient, resolveClientName, aiClientName, h1, h2, h3]

/-- Witness for C2 (amended): two candidates leave the selection empty
    and report both; a single candidate is auto-selected; the fallback
    resolver picks the first of two. -/
theorem candidate_choice_behavior_witness :
    ((handleAnalyzeSelected multiCandidateState
        (Except.ok ⟨none, ["Acme Corp", "Beta LLC"]⟩)
        (Except.error ())).1.selectedClientName = "" ∧
      (handleAnalyzeSelected multiCandidateState
        (Except.ok ⟨none, ["Acme Corp", "Beta LLC"]⟩)
        (Except.error ())).1.availableClientNames = ["Acme Corp", "Beta LLC"]) ∧
    (handleAnalyzeSelected multiCandidateState (Except.ok sampleAnalysis)
        (Except.error ())).1.selectedClientName = "Acme Corp" ∧
    resolvedClient false "" "" none ["Acme Corp", "Beta LLC"] =
      some "Acme Corp" :=
  ⟨(candidate_choice_behavior multiCandidateState
      ⟨none, ["Acme Corp", "Beta LLC"]⟩ (Except.error ()) "Acme Corp"
      "Beta LLC" []).1 (by decide) (by decide),
   (candidate_choice_behavior multiCandidateState sampleAnalysis
      (Except.error ()) "Acme Corp" "Beta LLC" []).2.1 (by decide) (by decide),
   (candidate_choice_behavior multiCandidateState sampleAnalysis
      (Except.error ()) "Acme Corp" "Beta LLC" []).2.2 (by decide) (by decide)⟩

/-- Counterexample to C7: on the list input `- a` the converter is not
    idempotent — the second application wraps the already-wrapped list in
    a second `ul` container, because the wrapping replacement matches the
    `li` span it produced the first time. -/
theorem toDisplayMarkup_not_idempotent_counterexample :
    parseCrewAIOutput "- a" = "<ul><li>a</li></ul>" ∧
    parseCrewAIOutput (parseCrewAIOutput "- a") = "<ul><ul><li>a</li></ul></ul>" ∧
    parseCrewAIOutput (parseCrewAIOutput "- a") ≠ parseCrewAIOutput "- a" := by
  decide

/-- C7 (amended): the converter is idempotent on every input free of its
    trigger characters (asterisks, hashes, hyphens, line breaks, angle
    brackets and digits); on list inputs it is not idempotent, since the
    second application re-wraps the generated list container. -/
theorem toDisplayMarkup_idempotent_on_plain (s : String)
    (h : s.data.all plainChar = true) :
    parseCrewAIOutput (parseCrewAIOutput s) = parseCrewAIOutput s := by
  rw [parseCrewAIOutput_plain_id s h, parseCrewAIOutput_plain_id s h]

/-- Witness for C7 (amended) at a concrete plain string. -/
theorem toDisplayMarkup_idempotent_on_plain_witness :
    ("hello world.".data.all plainChar = true) ∧
    parseCrewAIOutput (parseCrewAIOutput "hello world.") =
      parseCrewAIOutput "hello world." :=
  ⟨by decide, toDisplayMarkup_idempotent_on_plain "hello world." (by decide)⟩

/-- Counterexample to C8: a bullet that contains the placeholder and an
    email address not belonging to any known participant is left
    completely unchanged — the first-participant fallback is not applied,
    because the fallback branch requires that no email occur in the bullet
    at all. -/
theorem unknown_sender_unmatched_email_counterexample :
    extractEmails "Unknown Sender wrote to b@y.com" = ["b@y.com"] ∧
    rewriteSummary [("a@x.com", "Alice")] "Unknown Sender wrote to b@y.com" =
      "Unknown Sender wrote to b@y.com" ∧
    rewriteSummary [("a@x.com", "Alice")] "Unknown Sender wrote to b@y.com" ≠
      "Alice wrote to b@y.com" := by
  decide

lemma foldl_lookup_noop (ps : List (String × String)) :
    ∀ (emails : List String) (cur : String),
      (∀ em ∈ emails, (ps.lookup (jsToLower em)).getD "" = "") →
      emails.foldl (fun cur email =>
        match ps.lookup (jsToLower email) with
        | some name => if name = "" then cur else replaceUnknownCI cur name
        | none => cur) cur = cur := by
  intro emails
  induction emails with
  | nil => intro cur _; rfl
  | cons e rest ih =>
    intro cur h
    have he := h e (by simp)
    simp only [List.foldl_cons]
    have step : (match ps.lookup (jsToLower e) with
        | some name => if name = "" then cur else replaceUnknownCI cur name
        | none => cur) = cur := by
      cases hl : ps.lookup (jsToLower e) with
      | none => rfl
      | some name =>
          rw [hl] at he
          simp only [Option.getD_some] at he
          simp [he]
    rw [step]
    exact ih cur (fun em hm => h em (by simp [hm]))

/-- C8 (amended): for a bullet containing the `unknown sender` placeholder
    (case-insensitively), the rewrite (a) substitutes the first
    participant display name when the bullet contains no email address;
    (b) substitutes the matched participant name when the bullet contains
    exactly that participant email; (c) leaves the bullet unchanged when
    the bullet contains email addresses but none maps to a named
    participant — the first-participant fallback is not consulted; and
    (d) leaves the bullet unchanged when no participants are known.
    Bullets without the placeholder are never touched. -/
theorem unknown_sender_rewrite_behavior (ps : List (String × String))
    (bullet k n e : String) (rest : List (String × String)) :
    (mentionsUnknownSender bullet = true → extractEmails bullet = [] →
      ps = (k, n) :: rest → n ≠ "" →
      rewriteSummary ps bullet = replaceUnknownCI bullet n) ∧
    (mentionsUnknownSender bullet = true → extractEmails bullet = [e] →
      ps.lookup (jsToLower e) = some n → n ≠ "" →
      rewriteSummary ps bullet = replaceUnknownCI bullet n) ∧
    (mentionsUnknownSender bullet = true → extractEmails bullet ≠ [] →
      (∀ em ∈ extractEmails bullet, (ps.lookup (jsToLower em)).getD "" = "") →
      rewriteSummary ps bullet = bullet) ∧
    (mentionsUnknownSender bullet = true → ps = [] →
      rewriteSummary ps bullet = bullet) ∧
    (mentionsUnknownSender bullet = false →
      rewriteSummary ps bullet = bullet) := by
  refine ⟨?_, ?_, ?_, ?_, ?_⟩
  · intro h1 h2 h3 h4
    subst h3
    simp [rewriteSummary, h1, h2, h4]
  · intro h1 h2 h3 h4
    simp [rewriteSummary, h1, h2, h3, h4]
  · intro h1 h2 h3
    have hfold := foldl_lookup_noop ps (extractEmails bullet) bullet h3
    simp [rewriteSummary, h1, hfold, List.isEmpty_iff, h2]
  · intro h1 h2
    subst h2
    have hfold := foldl_lookup_noop [] (extractEmails bullet) bullet
      (by intro em _; rfl)
    simp [rewriteSummary, h1, hfold]
  · intro h1
    simp [rewriteSummary, h1]

/-- Witness for C8 (amended): the no-email fallback case on the bullet
    from the specification, producing the substituted bullet. -/
theorem unknown_sender_rewrite_behavior_witness :
    rewriteSummary [("a@x.com", "Alice")] "Unknown Sender proposed a call" =
      "Alice proposed a call" :=
  ((unknown_sender_rewrite_behavior [("a@x.com", "Alice")]
      "Unknown Sender proposed a call" "a@x.com" "Alice" "" []).1
      (by decide) (by decide) (by decide) (by decide)).trans (by decide)

/-- Counterexample to C9: when `structuredAnalysis.irrelevant_threads` is
    present, its records are passed through verbatim — a record lacking
    summary text keeps `summary` absent, nothing is synthesized from its
    metadata, and the raw relevancy record is ignored entirely. -/
theorem structured_passthrough_counterexample :
    getIrrelevantThreads
        (some [{ thread_subject := "X", summary := none,
                 reason_for_irrelevancy := none, email_summaries := [],
                 discussion_agenda := none }])
        (some [⟨"Renewal", 3, [], none⟩]) none =
      [{ thread_subject := "X", summary := none,
         reason_for_irrelevancy := none, email_summaries := [],
         discussion_agenda := none }] := by
  decide

/-- C9 (amended): raw threads from `relevancyAnalysis.irrelevant_threads`
    (used only when no AI-processed irrelevant threads exist) always
    receive a synthesized, non-empty summary mentioning the thread subject
    and its message count; AI-supplied records are passed through
    unchanged even without summary text, and the renderer then shows a
    fixed placeholder, so the displayed summary text is never empty. -/
theorem irrelevant_fallback_synthesis (rt : RawThread) (rts : List RawThread)
    (cm : Option (List MetaThread)) (i : Nat) (e : IrrelevantDisplay) :
    (getIrrelevantThreads none (some (rt :: rts)) cm =
      mapWithIndex synthEntry (rt :: rts)) ∧
    (rt.subject ≠ "" →
      ((synthEntry i rt).summary.getD "" ≠ "" ∧
       rt.subject.data <:+: ((synthEntry i rt).summary.getD "").data ∧
       (toString rt.message_count).data <:+:
         ((synthEntry i rt).summary.getD "").data)) ∧
    displayedSummary e ≠ "" := by
  refine ⟨?_, fun h => ⟨?_, ?_, ?_⟩, ?_⟩
  · simp [getIrrelevantThreads, mapWithIndex, mapWithIndex.go]
  · intro heq
    have hd := congrArg String.data heq
    simp [synthEntry, fallbackSubject, h, String.data_append] at hd
  · refine ⟨("This thread contains " ++ toString rt.message_count ++
      " messages discussing \"").data,
      ("\". The conversation involves " ++
        toString rt.participants.length ++ " participants: " ++
        String.intercalate ", " (rt.participants.map (fun p =>
          if p.2.display_name ≠ "" then p.2.display_name else p.2.email)) ++
        ".").data, ?_⟩
    simp [synthEntry, fallbackSubject, h, String.data_append,
      List.append_assoc]
  · refine ⟨"This thread contains ".data,
      (" messages discussing \"" ++ rt.subject ++
        "\". The conversation involves " ++
        toString rt.participants.length ++ " participants: " ++
        String.intercalate ", " (rt.participants.map (fun p =>
          if p.2.display_name ≠ "" then p.2.display_name else p.2.email)) ++
        ".").data, ?_⟩
    simp [synthEntry, fallbackSubject, h, String.data_append,
      List.append_assoc]
  · unfold displayedSummary
    split
    · assumption
    · decide

/-- Witness for C9 (amended): the specification instance — a raw thread
    with subject `Renewal` and three messages gets a synthesized summary
    mentioning both. -/
theorem irrelevant_fallback_synthesis_witness :
    getIrrelevantThreads none (some [⟨"Renewal", 3, [], none⟩]) none =
      [synthEntry 0 ⟨"Renewal", 3, [], none⟩] ∧
    (synthEntry 0 ⟨"Renewal", 3, [], none⟩).summary.getD "" ≠ "" ∧
    "Renewal".data <:+:
      ((synthEntry 0 ⟨"Renewal", 3, [], none⟩).summary.getD "").data ∧
    "3".data <:+:
      ((synthEntry 0 ⟨"Renewal", 3, [], none⟩).summary.getD "").data :=
  ⟨(irrelevant_fallback_synthesis ⟨"Renewal", 3, [], none⟩ [] none 0
      ⟨"X", none, none, [], none⟩).1,
   ((irrelevant_fallback_synthesis ⟨"Renewal", 3, [], none⟩ [] none 0
      ⟨"X", none, none, [], none⟩).2.1 (by decide)).1,
   ((irrelevant_fallback_synthesis ⟨"Renewal", 3, [], none⟩ [] none 0
      ⟨"X", none, none, [], none⟩).2.1 (by decide)).2.1,
   ((irrelevant_fallback_synthesis ⟨"Renewal", 3, [], none⟩ [] none 0
      ⟨"X", none, none, [], none⟩).2.1 (by decide)).2.2⟩

end EmailDossier
